import Mathlib

/-!
Shallow embedding of the `yellow-news-rate` repository:
`src/processor.py` (server-mode pipeline and batch orchestrator),
`src/main.py` (batch/offline mode, a near-duplicate worker), and
`src/server.py` (aiohttp HTTP handler).

External effects (the aiohttp network layer, the `adapters.inosmi_ru.sanitize`
extractor and the `text_tools.split_by_words` normalizer, both imported from
repository modules that are not under `src/`) are modelled as an environment
(`ArticleEnv`): for each URL the environment fixes the wall-clock duration and
the outcome of each external call.  Python exceptions are modelled by the
closed kind type `Exc`; asynchronous timeouts (`async_timeout.timeout(T)`)
raise `Exc.timeoutError` exactly when the guarded phase's duration exceeds `T`.
-/

/-- `ProcessingStatus` enumeration, processor.py lines 22-27 (duplicated
verbatim in main.py lines 16-21). -/
inductive ProcessingStatus
  | OK
  | FETCH_ERROR
  | PARSING_ERROR
  | TIMEOUT
  | INVALID_URL
deriving DecidableEq, Repr

/-- The `.value` string of each enum member, as stored into the result dict by
processor.py (main.py stores the bare enum member for `OK` and the `.value`
string for the failure statuses; the embedding uses the enum member uniformly,
`value` being injective). -/
def ProcessingStatus.value : ProcessingStatus → String
  | .OK => "OK"
  | .FETCH_ERROR => "FETCH_ERROR"
  | .PARSING_ERROR => "PARSING_ERROR"
  | .TIMEOUT => "TIMEOUT"
  | .INVALID_URL => "INVALID_URL"

/-- Kinds of Python exceptions relevant to the worker's `except` clauses
(processor.py lines 72-77, main.py lines 56-61).  `other` stands for any
exception outside the three caught groups — for example
`aiohttp.ClientConnectionError` / `ClientConnectorError` (DNS failure,
connection refused, TLS failure), which in aiohttp's hierarchy is a sibling of
`ClientResponseError`, not a subclass, and is therefore not matched by
`except (ClientResponseError, InvalidURL)`. -/
inductive Exc
  | clientResponseError
  | invalidURL
  | articleNotFound
  | timeoutError
  | other
deriving DecidableEq, Repr

/-- Is the exception kind matched by one of the worker's three `except`
clauses? -/
def Exc.caught : Exc → Bool
  | .other => false
  | _ => true

/-- The result dict built by `process_article`
(`{"rate": ..., "url": ..., "status": ...}`). -/
structure ProcessingResult where
  url : String
  status : ProcessingStatus
  rate : Option ℚ
deriving DecidableEq, Repr

/-- Round a rational to two decimal places (round to nearest). -/
def round2 (q : ℚ) : ℚ := ((round (100 * q) : ℤ) : ℚ) / 100

/-- Modelled from the spec: `calculate_jaundice_rate` lives in `text_tools.py`,
a repository module that is not under src/ (processor.py line 14 imports it).
Spec §4.4: `rate = 100 × (count of tokens present in vocabulary) / (total token
count)`, rounded to two decimal places; if the total token count is 0 the rate
is 0 rather than a division by zero. -/
def calculate_jaundice_rate (article_words charged_words : List String) : ℚ :=
  if article_words.length = 0 then 0
  else
    round2 (100 * (article_words.countP (fun w => charged_words.contains w) : ℚ) /
      (article_words.length : ℚ))

/-- Per-URL behaviour of the external world, fixed by the environment: the
wall-clock duration of the fetch, the value or exception `fetch` produces when
not cancelled by its deadline, the outcome of `adapters.inosmi_ru.sanitize`
(which raises `ArticleNotFound` on an unsupported document), the token list
produced by `text_tools.split_by_words` with the shared morph model, and the
wall-clock duration of the extract+normalize+score phase.  Durations are in
seconds; a phase guarded by `async_timeout.timeout(T)` raises
`asyncio.TimeoutError` exactly when its duration exceeds `T`. -/
structure ArticleEnv where
  fetchDur : ℕ
  fetchRes : Except Exc String
  sanitizeRes : String → Except Exc String
  splitRes : String → List String
  computeDur : ℕ

/-- The positive/negative word files read by `get_charged_words`
(`charged_dict/positive_words.txt` and `charged_dict/negative_words.txt`). -/
structure ChargedDict where
  positive_words : List String
  negative_words : List String

/-- processor.py lines 46-57 (identical copy in main.py): read both word
files and return their concatenation. -/
def get_charged_words (d : ChargedDict) : List String :=
  d.positive_words ++ d.negative_words

/-- Whole-process environment: the dictionary files on disk and the per-URL
external behaviour. -/
structure ServerEnv where
  dict : ChargedDict
  article : String → ArticleEnv

namespace Processor

/-- processor.py line 16. -/
def FETCH_TIMEOUT : ℕ := 5

/-- processor.py line 17. -/
def PROCESSING_TIMEOUT : ℕ := 10

/-- The `try:` body of `process_article` (processor.py lines 63-71): fetch the
page under `timeout(FETCH_TIMEOUT)`, then, under a second, independent
`timeout(PROCESSING_TIMEOUT)`, sanitize, split into words and score.
`sanitize` is synchronous and runs before the first await inside that block, so
an exception it raises propagates before the compute deadline can fire; the
compute deadline fires at the awaited `split_by_words` call or at block exit.
Produces the rate assigned by `result["rate"] = rate`, or the exception that
escapes the block. -/
def try_block (env : ArticleEnv) (charged_words : List String) : Except Exc ℚ :=
  match (if FETCH_TIMEOUT < env.fetchDur then Except.error Exc.timeoutError
         else env.fetchRes) with
  | .error e => .error e
  | .ok html =>
    match env.sanitizeRes html with
    | .error e => .error e
    | .ok sanitized_text =>
      if PROCESSING_TIMEOUT < env.computeDur then .error .timeoutError
      else .ok (calculate_jaundice_rate (env.splitRes sanitized_text) charged_words)

/-- processor.py lines 60-78.  The result dict starts as
`{"rate": None, "url": url, "status": OK}`; the `try` body assigns `rate` as
its last statement; `except (ClientResponseError, InvalidURL)` sets
`FETCH_ERROR`, `except ArticleNotFound` sets `PARSING_ERROR`,
`except (asyncio.TimeoutError, TimeoutError)` sets `TIMEOUT`; then
`results.append(result)` runs.  There is no catch-all clause and the append is
not in a `finally`, so an exception outside the three caught groups skips the
append and propagates to the caller. -/
def process_article (env : ArticleEnv) (results : List ProcessingResult)
    (url : String) (charged_words : List String) :
    Except Exc (List ProcessingResult) :=
  match try_block env charged_words with
  | .ok rate => .ok (results ++ [⟨url, .OK, some rate⟩])
  | .error .clientResponseError => .ok (results ++ [⟨url, .FETCH_ERROR, none⟩])
  | .error .invalidURL => .ok (results ++ [⟨url, .FETCH_ERROR, none⟩])
  | .error .articleNotFound => .ok (results ++ [⟨url, .PARSING_ERROR, none⟩])
  | .error .timeoutError => .ok (results ++ [⟨url, .TIMEOUT, none⟩])
  | .error .other => .error .other

/-- The anyio task group of `process` (processor.py lines 85-87), modelled by
running the workers in their completion order: each completed worker appends
its result to the shared list; a worker whose exception is not caught makes
the task group propagate it (anyio wraps it in an ExceptionGroup, modelled as
the exception itself).  The second component counts `fetch` invocations among
the workers that ran. -/
def process_list (E : ServerEnv) (charged_words : List String) :
    List String → List ProcessingResult →
    Except Exc (List ProcessingResult) × ℕ
  | [], results => (.ok results, 0)
  | url :: rest, results =>
    match process_article (E.article url) results url charged_words with
    | .ok acc =>
      let (r, n) := process_list E charged_words rest acc
      (r, n + 1)
    | .error e => (.error e, 1)

/-- processor.py lines 81-89: load the charged words (once per call), start one
worker per article, wait for all of them, return the shared results list.
`order` is the completion order of the workers, an arbitrary permutation of
the requested articles (theorems quantify over it). -/
def process (E : ServerEnv) (order : List String) :
    Except Exc (List ProcessingResult) × ℕ :=
  process_list E (get_charged_words E.dict) order []

end Processor

namespace MainPy

/-- main.py line 13: the batch-mode fetch deadline. -/
def FETCH_TIMEOUT : ℕ := 3

/-- The `try:` body of main.py's `process_article` (main.py lines 49-55):
fetch under `timeout(FETCH_TIMEOUT)`, then sanitize, split and score with NO
second timeout — the extract+normalize+score phase is unbounded, so
`env.computeDur` is never consulted. -/
def try_block (env : ArticleEnv) (charged_words : List String) : Except Exc ℚ :=
  match (if FETCH_TIMEOUT < env.fetchDur then Except.error Exc.timeoutError
         else env.fetchRes) with
  | .error e => .error e
  | .ok html =>
    match env.sanitizeRes html with
    | .error e => .error e
    | .ok sanitized_text =>
      .ok (calculate_jaundice_rate (env.splitRes sanitized_text) charged_words)

/-- main.py lines 44-62: same structure as processor.py's worker (the morph
model, passed explicitly there, is closed over by `env.splitRes`). -/
def process_article (env : ArticleEnv) (results : List ProcessingResult)
    (url : String) (charged_words : List String) :
    Except Exc (List ProcessingResult) :=
  match try_block env charged_words with
  | .ok rate => .ok (results ++ [⟨url, .OK, some rate⟩])
  | .error .clientResponseError => .ok (results ++ [⟨url, .FETCH_ERROR, none⟩])
  | .error .invalidURL => .ok (results ++ [⟨url, .FETCH_ERROR, none⟩])
  | .error .articleNotFound => .ok (results ++ [⟨url, .PARSING_ERROR, none⟩])
  | .error .timeoutError => .ok (results ++ [⟨url, .TIMEOUT, none⟩])
  | .error .other => .error .other

end MainPy

/-- Python's `str.split(",")` on the raw character list: split at every
comma; splitting the empty string yields `[""]`.  (Structurally recursive so
that concrete instances evaluate.) -/
def splitCommasAux : List Char → List Char → List (List Char)
  | [], acc => [acc.reverse]
  | c :: rest, acc =>
    if c = ',' then acc.reverse :: splitCommasAux rest []
    else splitCommasAux rest (c :: acc)

/-- Python's `"s".split(",")`. -/
def splitCommas (s : String) : List String :=
  (splitCommasAux s.data []).map String.mk

namespace Server

/-- server.py line 4. -/
def MAX_NUMBER_OF_URLS : ℕ := 10

/-- The f-string of server.py lines 10-12. -/
def error_message : String :=
  "too many urls in request, should be " ++ toString MAX_NUMBER_OF_URLS ++ " or less"

/-- The HTTP response produced for one request: the 400 error JSON, the 200
JSON array of result dicts (serialization by `web.json_response` is not
modelled), or the 500 Internal Server Error the aiohttp framework sends when
`handle` lets an exception escape. -/
inductive Response
  | badRequest (error : String)
  | jsonOk (data : List ProcessingResult)
  | internalError (e : Exc)
deriving DecidableEq, Repr

/-- What one call of `handle` did: its response, how many `fetch` invocations
it caused, and how many times it loaded the charged-word files
(`get_charged_words` runs once inside every `process` call). -/
structure HandleTrace where
  response : Response
  fetch_calls : ℕ
  vocab_loads : ℕ
deriving DecidableEq, Repr

/-- server.py lines 8-17: split the `urls` query parameter (default `""`) on
commas; reject with 400 if more than `MAX_NUMBER_OF_URLS` URLs; otherwise run
`process` and return its results as JSON.  `urlsParam` is
`request.query.get("urls", "")`; `order` is the workers' completion order. -/
def handle (E : ServerEnv) (urlsParam : Option String) (order : List String) :
    HandleTrace :=
  let urls := splitCommas (urlsParam.getD "")
  if MAX_NUMBER_OF_URLS < urls.length then
    ⟨.badRequest error_message, 0, 0⟩
  else
    match Processor.process E order with
    | (.ok results, n) => ⟨.jsonOk results, n, 1⟩
    | (.error e, n) => ⟨.internalError e, n, 1⟩

/-- One aiohttp server process handling a sequence of requests (each request
supplying its `urls` parameter and its workers' completion order): the list of
responses and the total number of charged-word file loads in the process's
lifetime. -/
def serve (E : ServerEnv) :
    List (Option String × List String) → List Response × ℕ
  | [] => ([], 0)
  | (p, ord) :: rest =>
    let t := handle E p ord
    let (rs, n) := serve E rest
    (t.response :: rs, t.vocab_loads + n)

end Server

/-- Does the worker's `try:` body end in a value or in an exception matched by
one of the `except` clauses (so that the worker reaches
`results.append(result)`)? -/
def Processor.worker_ok (env : ArticleEnv) (charged_words : List String) : Bool :=
  match Processor.try_block env charged_words with
  | .ok _ => true
  | .error e => e.caught

/-- A URL whose fetch succeeds instantly with a page the extractor handles,
yielding an empty token list. -/
def okEnv : ArticleEnv where
  fetchDur := 0
  fetchRes := .ok "<html></html>"
  sanitizeRes := fun _ => .ok ""
  splitRes := fun _ => []
  computeDur := 0

/-- A server environment in which every URL behaves like `okEnv`. -/
def okServerEnv : ServerEnv where
  dict := ⟨[], []⟩
  article := fun _ => okEnv

/-- A URL whose fetch fails at the transport level (DNS failure or connection
refused): aiohttp raises `ClientConnectorError`, which is not a
`ClientResponseError`, hence `Exc.other`. -/
def connRefusedEnv : ArticleEnv where
  fetchDur := 0
  fetchRes := .error .other
  sanitizeRes := fun _ => .ok ""
  splitRes := fun _ => []
  computeDur := 0

/-- A server environment in which every URL fails with a transport-level
connection error. -/
def crashServerEnv : ServerEnv where
  dict := ⟨[], []⟩
  article := fun _ => connRefusedEnv

/-- A URL whose page fetches fine but whose extraction raises an exception
outside the three caught groups (e.g. a bug or an unexpected error type in
`sanitize`). -/
def weirdSanitizeEnv : ArticleEnv where
  fetchDur := 0
  fetchRes := .ok "<html></html>"
  sanitizeRes := fun _ => .error .other
  splitRes := fun _ => []
  computeDur := 0

/-- A URL for which the server answers with a non-success HTTP status:
`response.raise_for_status()` raises `ClientResponseError`. -/
def http404Env : ArticleEnv where
  fetchDur := 0
  fetchRes := .error .clientResponseError
  sanitizeRes := fun _ => .ok ""
  splitRes := fun _ => []
  computeDur := 0

/-- A URL that fetches and parses fine but whose extract+normalize+score phase
takes 1000 seconds. -/
def slowComputeEnv : ArticleEnv where
  fetchDur := 0
  fetchRes := .ok "<html></html>"
  sanitizeRes := fun _ => .ok ""
  splitRes := fun _ => []
  computeDur := 1000

/-- A server environment in which every URL (in particular `""`) makes
`session.get` raise `aiohttp.InvalidURL`, as it does for the empty string. -/
def emptyUrlServerEnv : ServerEnv where
  dict := ⟨["плохой"], ["хороший"]⟩
  article := fun _ =>
    { fetchDur := 0
      fetchRes := .error .invalidURL
      sanitizeRes := fun _ => .ok ""
      splitRes := fun _ => []
      computeDur := 0 }
theorem round2_nonneg {q : ℚ} (h : 0 ≤ q) : 0 ≤ round2 q := by
  unfold round2
  have h1 : (0 : ℚ) ≤ 100 * q := by positivity
  have h2 : ((1 : ℚ) / 2) ≤ 100 * q + 1 / 2 := by linarith
  have h3 : (0 : ℤ) ≤ round (100 * q) := by
    rw [round_eq]
    have := Int.floor_mono h2
    have h4 : Int.floor ((1 : ℚ) / 2) = 0 := by norm_num [Int.floor_eq_iff]
    omega
  positivity

theorem round2_le_100 {q : ℚ} (h : q ≤ 100) : round2 q ≤ 100 := by
  unfold round2
  have h2 : 100 * q + 1 / 2 ≤ (1 : ℚ) / 2 + (10000 : ℤ) := by push_cast; linarith
  have h3 : round (100 * q) ≤ 10000 := by
    rw [round_eq]
    have := Int.floor_mono h2
    rw [Int.floor_add_int] at this
    have h4 : Int.floor ((1 : ℚ) / 2) = 0 := by norm_num [Int.floor_eq_iff]
    omega
  rw [div_le_iff₀ (by norm_num : (0:ℚ) < 100)]
  exact_mod_cast le_trans (Int.cast_le.mpr h3) (by norm_num)

theorem calculate_jaundice_rate_nonneg (ws cs : List String) :
    0 ≤ calculate_jaundice_rate ws cs := by
  unfold calculate_jaundice_rate
  split
  · norm_num
  · apply round2_nonneg
    positivity

theorem calculate_jaundice_rate_le_100 (ws cs : List String) :
    calculate_jaundice_rate ws cs ≤ 100 := by
  unfold calculate_jaundice_rate
  split
  · norm_num
  · rename_i h
    apply round2_le_100
    have hlen : 0 < (ws.length : ℚ) := by
      have : 0 < ws.length := Nat.pos_of_ne_zero h
      exact_mod_cast this
    rw [div_le_iff₀ hlen]
    have hcount : ws.countP (fun w => cs.contains w) ≤ ws.length :=
      List.countP_le_length _
    have : (ws.countP (fun w => cs.contains w) : ℚ) ≤ (ws.length : ℚ) :=
      Nat.cast_le.mpr hcount
    nlinarith


theorem Processor.process_article_ok_of_worker_ok (env : ArticleEnv)
    (results : List ProcessingResult) (url : String) (cw : List String)
    (h : Processor.worker_ok env cw = true) :
    ∃ r, Processor.process_article env results url cw = Except.ok (results ++ [r]) ∧
      r.url = url := by
  unfold Processor.worker_ok at h
  unfold Processor.process_article
  cases htb : Processor.try_block env cw with
  | ok q => exact ⟨_, rfl, rfl⟩
  | error e =>
    cases e
    · exact ⟨_, rfl, rfl⟩
    · exact ⟨_, rfl, rfl⟩
    · exact ⟨_, rfl, rfl⟩
    · exact ⟨_, rfl, rfl⟩
    · rw [htb] at h; simp [Exc.caught] at h

theorem Processor.process_list_ok (E : ServerEnv) (cw : List String) :
    ∀ (order : List String) (results : List ProcessingResult),
    (∀ u ∈ order, Processor.worker_ok (E.article u) cw = true) →
    ∃ rs, Processor.process_list E cw order results =
        (Except.ok (results ++ rs), order.length) ∧
      rs.map ProcessingResult.url = order := by
  intro order
  induction order with
  | nil => exact fun results _ => ⟨[], by simp [Processor.process_list], rfl⟩
  | cons u rest ih =>
    intro results h
    obtain ⟨r, hr, hu⟩ :=
      Processor.process_article_ok_of_worker_ok (E.article u) results u cw
        (h u (by simp))
    obtain ⟨rs, hrs, hmap⟩ := ih (results ++ [r]) (fun v hv => h v (by simp [hv]))
    refine ⟨r :: rs, ?_, ?_⟩
    · simp only [Processor.process_list, hr, hrs, List.append_assoc,
        List.singleton_append, List.length_cons]
    · simp [hmap, hu]

theorem Processor.try_block_ok_bounds (env : ArticleEnv) (cw : List String)
    (q : ℚ) (h : Processor.try_block env cw = Except.ok q) : 0 ≤ q ∧ q ≤ 100 := by
  unfold Processor.try_block at h
  split at h
  · simp at h
  · split at h
    · simp at h
    · split at h
      · simp at h
      · rw [Except.ok.injEq] at h
        subst h
        exact ⟨calculate_jaundice_rate_nonneg _ _, calculate_jaundice_rate_le_100 _ _⟩

theorem MainPy.batch_try_block_ok_bounds (env : ArticleEnv) (cw : List String)
    (q : ℚ) (h : MainPy.try_block env cw = Except.ok q) : 0 ≤ q ∧ q ≤ 100 := by
  unfold MainPy.try_block at h
  split at h
  · simp at h
  · split at h
    · simp at h
    · rw [Except.ok.injEq] at h
      subst h
      exact ⟨calculate_jaundice_rate_nonneg _ _, calculate_jaundice_rate_le_100 _ _⟩

/-- C1 (amended): for every request whose workers all end in a caught outcome
(value or caught exception), the batch result returned by `process` contains
exactly one `ProcessingResult` per requested URL — the results, listed in
completion order, carry exactly the requested URLs, none lost or duplicated. -/
theorem C1_one_result_per_url (E : ServerEnv) (articles order : List String)
    (hperm : order.Perm articles)
    (hok : ∀ url ∈ articles,
      Processor.worker_ok (E.article url) (get_charged_words E.dict) = true) :
    ∃ rs, (Processor.process E order).1 = Except.ok rs ∧
      rs.length = articles.length ∧
      rs.map ProcessingResult.url = order := by
  obtain ⟨rs, heq, hmap⟩ :=
    Processor.process_list_ok E (get_charged_words E.dict) order []
      (fun u hu => hok u (hperm.mem_iff.mp hu))
  refine ⟨rs, ?_, ?_, hmap⟩
  · simp [Processor.process, heq]
  · calc rs.length = (rs.map ProcessingResult.url).length := (List.length_map _ _).symm
    _ = order.length := by rw [hmap]
    _ = articles.length := hperm.length_eq

/-- C1 witness: a concrete two-URL batch in which both workers succeed. -/
theorem C1_witness :
    ∃ rs,
      (Processor.process okServerEnv ["http://a.example/", "http://b.example/"]).1 =
        Except.ok rs ∧
      rs.length = (["http://a.example/", "http://b.example/"] : List String).length ∧
      rs.map ProcessingResult.url = ["http://a.example/", "http://b.example/"] :=
  C1_one_result_per_url okServerEnv
    ["http://a.example/", "http://b.example/"]
    ["http://a.example/", "http://b.example/"]
    (List.Perm.refl _) (by decide)

/-- C1 counterexample: a worker whose fetch fails with a transport-level
connection error (`Exc.other`, uncaught) appends nothing — the batch yields no
result at all for the requested URL, instead of exactly one result per URL
"regardless of outcome, including on timeout or crash". -/
theorem C1_counterexample :
    (Processor.process crashServerEnv ["http://refused.example/"]).1 =
      Except.error Exc.other ∧
    ∀ rs : List ProcessingResult,
      (Processor.process crashServerEnv ["http://refused.example/"]).1 ≠
        Except.ok rs := by
  refine ⟨rfl, fun rs h => ?_⟩
  exact Except.noConfusion h

/-- C2: for every result appended by `process_article` (either version), the
`rate` field is non-null exactly when `status == OK`, and a non-null rate lies
in `[0, 100]`. -/
theorem C2_rate_iff_ok (env : ArticleEnv) (results : List ProcessingResult)
    (url : String) (cw : List String) (rs : List ProcessingResult)
    (r : ProcessingResult)
    (hs : Processor.process_article env results url cw = Except.ok rs ∨
          MainPy.process_article env results url cw = Except.ok rs)
    (hr : rs = results ++ [r]) :
    (r.rate ≠ none ↔ r.status = ProcessingStatus.OK) ∧
    (∀ q : ℚ, r.rate = some q → 0 ≤ q ∧ q ≤ 100) := by
  subst hr
  rcases hs with hs | hs
  · unfold Processor.process_article at hs
    cases htb : Processor.try_block env cw with
    | ok q =>
      rw [htb] at hs
      simp only [Except.ok.injEq] at hs
      have hrq := List.append_cancel_left hs
      simp only [List.cons.injEq, and_true] at hrq
      subst hrq
      obtain ⟨h0, h1⟩ := Processor.try_block_ok_bounds env cw q htb
      refine ⟨by simp, fun p hp => ?_⟩
      simp only [Option.some.injEq] at hp
      subst hp
      exact ⟨h0, h1⟩
    | error e =>
      rw [htb] at hs
      cases e <;> simp only [Except.ok.injEq] at hs <;>
        [skip; skip; skip; skip; exact Except.noConfusion hs] <;>
        · have hrq := List.append_cancel_left hs
          simp only [List.cons.injEq, and_true] at hrq
          subst hrq
          exact ⟨by simp, fun p hp => by simp at hp⟩
  · unfold MainPy.process_article at hs
    cases htb : MainPy.try_block env cw with
    | ok q =>
      rw [htb] at hs
      simp only [Except.ok.injEq] at hs
      have hrq := List.append_cancel_left hs
      simp only [List.cons.injEq, and_true] at hrq
      subst hrq
      obtain ⟨h0, h1⟩ := MainPy.batch_try_block_ok_bounds env cw q htb
      refine ⟨by simp, fun p hp => ?_⟩
      simp only [Option.some.injEq] at hp
      subst hp
      exact ⟨h0, h1⟩
    | error e =>
      rw [htb] at hs
      cases e <;> simp only [Except.ok.injEq] at hs <;>
        [skip; skip; skip; skip; exact Except.noConfusion hs] <;>
        · have hrq := List.append_cancel_left hs
          simp only [List.cons.injEq, and_true] at hrq
          subst hrq
          exact ⟨by simp, fun p hp => by simp at hp⟩

/-- C2 witness: the successful worker of `okEnv` appends
`{url, OK, rate = 0}`, which satisfies the invariant. -/
theorem C2_witness :
    ((ProcessingResult.mk "http://a.example/" ProcessingStatus.OK (some 0)).rate ≠ none ↔
      (ProcessingResult.mk "http://a.example/" ProcessingStatus.OK (some 0)).status =
        ProcessingStatus.OK) ∧
    (∀ q : ℚ,
      (ProcessingResult.mk "http://a.example/" ProcessingStatus.OK (some 0)).rate = some q →
      0 ≤ q ∧ q ≤ 100) :=
  C2_rate_iff_ok okEnv [] "http://a.example/" []
    [ProcessingResult.mk "http://a.example/" ProcessingStatus.OK (some 0)]
    (ProcessingResult.mk "http://a.example/" ProcessingStatus.OK (some 0))
    (Or.inl rfl) rfl

/-- C3 (amended): every failure of one of the three caught exception groups —
`(ClientResponseError, InvalidURL)`, `ArticleNotFound`,
`(asyncio.TimeoutError, TimeoutError)` — is caught locally by `process_article`
and converted into the corresponding status value, and a success produces an
`OK` result; an exception outside these groups is not caught and escapes the
worker to its caller. -/
theorem C3_handled_failures_converted (env : ArticleEnv)
    (results : List ProcessingResult) (url : String) (cw : List String) :
    (∀ q : ℚ, Processor.try_block env cw = Except.ok q →
      Processor.process_article env results url cw =
        Except.ok (results ++ [⟨url, ProcessingStatus.OK, some q⟩])) ∧
    (Processor.try_block env cw = Except.error Exc.clientResponseError →
      Processor.process_article env results url cw =
        Except.ok (results ++ [⟨url, ProcessingStatus.FETCH_ERROR, none⟩])) ∧
    (Processor.try_block env cw = Except.error Exc.invalidURL →
      Processor.process_article env results url cw =
        Except.ok (results ++ [⟨url, ProcessingStatus.FETCH_ERROR, none⟩])) ∧
    (Processor.try_block env cw = Except.error Exc.articleNotFound →
      Processor.process_article env results url cw =
        Except.ok (results ++ [⟨url, ProcessingStatus.PARSING_ERROR, none⟩])) ∧
    (Processor.try_block env cw = Except.error Exc.timeoutError →
      Processor.process_article env results url cw =
        Except.ok (results ++ [⟨url, ProcessingStatus.TIMEOUT, none⟩])) ∧
    (Processor.try_block env cw = Except.error Exc.other →
      Processor.process_article env results url cw = Except.error Exc.other) := by
  refine ⟨fun q h => ?_, fun h => ?_, fun h => ?_, fun h => ?_, fun h => ?_,
    fun h => ?_⟩ <;>
  · unfold Processor.process_article
    rw [h]

/-- C3 witness: a 404 URL — `raise_for_status` raises `ClientResponseError`,
which the worker converts into a `FETCH_ERROR` result. -/
theorem C3_witness :
    Processor.process_article http404Env []
      "https://inosmi.ru/article_does_not_exist.html" [] =
      Except.ok ([] ++
        [⟨"https://inosmi.ru/article_does_not_exist.html",
          ProcessingStatus.FETCH_ERROR, none⟩]) :=
  (C3_handled_failures_converted http404Env []
    "https://inosmi.ru/article_does_not_exist.html" []).2.1 rfl

/-- C3 counterexample: an exception outside the three caught groups (here an
unexpected failure inside `sanitize`) escapes `process_article` to the
orchestrator instead of being converted into a status. -/
theorem C3_counterexample :
    Processor.process_article weirdSanitizeEnv [] "https://inosmi.ru/x.html" [] =
      Except.error Exc.other ∧
    ∀ rs : List ProcessingResult,
      Processor.process_article weirdSanitizeEnv [] "https://inosmi.ru/x.html" [] ≠
        Except.ok rs :=
  ⟨rfl, fun _ h => Except.noConfusion h⟩

/-- C4 (amended): the server-mode worker (processor.py) enforces two
independent, non-cumulative deadlines — `FETCH_TIMEOUT = 5` around the fetch
and `PROCESSING_TIMEOUT = 10` around extract+normalize+score — exceeding
either of which yields a `TIMEOUT` result for that worker; the batch-mode
worker (main.py) enforces only its fetch deadline (`FETCH_TIMEOUT = 3`): its
compute phase is unbounded and its outcome is independent of the compute
duration. -/
theorem C4_two_deadlines (env : ArticleEnv) (results : List ProcessingResult)
    (url : String) (cw : List String) :
    (Processor.FETCH_TIMEOUT < env.fetchDur →
      Processor.process_article env results url cw =
        Except.ok (results ++ [⟨url, ProcessingStatus.TIMEOUT, none⟩])) ∧
    (∀ html text, env.fetchDur ≤ Processor.FETCH_TIMEOUT →
      env.fetchRes = Except.ok html →
      env.sanitizeRes html = Except.ok text →
      Processor.PROCESSING_TIMEOUT < env.computeDur →
      Processor.process_article env results url cw =
        Except.ok (results ++ [⟨url, ProcessingStatus.TIMEOUT, none⟩])) ∧
    (∀ d d', d ≤ Processor.FETCH_TIMEOUT → d' ≤ Processor.FETCH_TIMEOUT →
      Processor.process_article { env with fetchDur := d } results url cw =
        Processor.process_article { env with fetchDur := d' } results url cw) ∧
    (MainPy.FETCH_TIMEOUT < env.fetchDur →
      MainPy.process_article env results url cw =
        Except.ok (results ++ [⟨url, ProcessingStatus.TIMEOUT, none⟩])) ∧
    (∀ d, MainPy.process_article { env with computeDur := d } results url cw =
      MainPy.process_article env results url cw) := by
  refine ⟨fun h => ?_, fun html text h1 h2 h3 h4 => ?_, fun d d' hd hd' => ?_,
    fun h => ?_, fun d => rfl⟩
  · simp [Processor.process_article, Processor.try_block, h]
  · simp [Processor.process_article, Processor.try_block, Nat.not_lt.mpr h1,
      h2, h3, h4]
  · have htb : Processor.try_block { env with fetchDur := d } cw =
        Processor.try_block { env with fetchDur := d' } cw := by
      simp [Processor.try_block, Nat.not_lt.mpr hd, Nat.not_lt.mpr hd']
    unfold Processor.process_article
    rw [htb]
  · simp [MainPy.process_article, MainPy.try_block, h]

/-- C4 witness: a fetch that takes 6 s in server mode exceeds the 5 s fetch
deadline and yields a `TIMEOUT` result. -/
theorem C4_witness :
    Processor.process_article { okEnv with fetchDur := 6 } []
      "http://slow.example/" [] =
      Except.ok ([] ++ [⟨"http://slow.example/", ProcessingStatus.TIMEOUT, none⟩]) :=
  (C4_two_deadlines { okEnv with fetchDur := 6 } [] "http://slow.example/" []).1
    (by decide)

/-- C4 counterexample: in batch mode (main.py) a compute phase of 1000 s —
far beyond the 10 s compute deadline of server mode — still produces an `OK`
result, not `TIMEOUT`: main.py's worker has no second deadline. -/
theorem C4_counterexample :
    MainPy.process_article slowComputeEnv [] "https://inosmi.ru/slow.html" [] =
      Except.ok [⟨"https://inosmi.ru/slow.html", ProcessingStatus.OK, some 0⟩] ∧
    Processor.PROCESSING_TIMEOUT < slowComputeEnv.computeDur ∧
    ProcessingStatus.OK ≠ ProcessingStatus.TIMEOUT :=
  ⟨rfl, by decide, by decide⟩

theorem Processor.process_article_ok_shape (env : ArticleEnv)
    (results : List ProcessingResult) (url : String) (cw : List String)
    (rs : List ProcessingResult)
    (h : Processor.process_article env results url cw = Except.ok rs) :
    ∃ r', rs = results ++ [r'] ∧ r'.status ≠ ProcessingStatus.INVALID_URL ∧
      r'.url = url := by
  unfold Processor.process_article at h
  cases htb : Processor.try_block env cw with
  | ok q =>
    rw [htb] at h
    simp only [Except.ok.injEq] at h
    exact ⟨_, h.symm, by simp, rfl⟩
  | error e =>
    rw [htb] at h
    cases e <;>
      first
        | exact Except.noConfusion h
        | (simp only [Except.ok.injEq] at h; exact ⟨_, h.symm, by simp, rfl⟩)

theorem MainPy.batch_process_article_ok_shape (env : ArticleEnv)
    (results : List ProcessingResult) (url : String) (cw : List String)
    (rs : List ProcessingResult)
    (h : MainPy.process_article env results url cw = Except.ok rs) :
    ∃ r', rs = results ++ [r'] ∧ r'.status ≠ ProcessingStatus.INVALID_URL ∧
      r'.url = url := by
  unfold MainPy.process_article at h
  cases htb : MainPy.try_block env cw with
  | ok q =>
    rw [htb] at h
    simp only [Except.ok.injEq] at h
    exact ⟨_, h.symm, by simp, rfl⟩
  | error e =>
    rw [htb] at h
    cases e <;>
      first
        | exact Except.noConfusion h
        | (simp only [Except.ok.injEq] at h; exact ⟨_, h.symm, by simp, rfl⟩)

/-- C5 (amended): a request with more than 10 URLs gets exactly the 400
response with the literal error body, with zero fetches and zero vocabulary
loads; a request within the limit runs the batch orchestrator and — provided
every worker ends in a caught outcome — gets a 200 response carrying one
result per requested URL (a worker's uncaught exception instead escapes the
handler, which the counterexample exhibits). -/
theorem C5_url_limit (E : ServerEnv) (p : Option String) (order : List String) :
    (Server.MAX_NUMBER_OF_URLS < (splitCommas (p.getD "")).length →
      Server.handle E p order =
        ⟨Server.Response.badRequest
          "too many urls in request, should be 10 or less", 0, 0⟩) ∧
    ((splitCommas (p.getD "")).length ≤ Server.MAX_NUMBER_OF_URLS →
      order.Perm (splitCommas (p.getD "")) →
      (∀ u ∈ splitCommas (p.getD ""),
        Processor.worker_ok (E.article u) (get_charged_words E.dict) = true) →
      ∃ rs, Server.handle E p order =
          ⟨Server.Response.jsonOk rs, (splitCommas (p.getD "")).length, 1⟩ ∧
        rs.length = (splitCommas (p.getD "")).length ∧
        rs.map ProcessingResult.url = order) := by
  constructor
  · intro h
    unfold Server.handle
    rw [if_pos h]
    rfl
  · intro hle hperm hok
    obtain ⟨rs, heq, hmap⟩ :=
      Processor.process_list_ok E (get_charged_words E.dict) order []
        (fun u hu => hok u (hperm.mem_iff.mp hu))
    have hp : Processor.process E order =
        (Except.ok rs, (splitCommas (p.getD "")).length) := by
      unfold Processor.process
      rw [heq]
      simp [hperm.length_eq]
    refine ⟨rs, ?_, ?_, hmap⟩
    · unfold Server.handle
      rw [if_neg (Nat.not_lt.mpr hle), hp]
    · calc rs.length = (rs.map ProcessingResult.url).length :=
        (List.length_map _ _).symm
      _ = order.length := by rw [hmap]
      _ = (splitCommas (p.getD "")).length := hperm.length_eq

/-- C5 witness: a request with 11 URLs is rejected with the exact 400 body and
zero fetches. -/
theorem C5_witness :
    Server.handle okServerEnv (some "a,b,c,d,e,f,g,h,i,j,k") [] =
      ⟨Server.Response.badRequest
        "too many urls in request, should be 10 or less", 0, 0⟩ :=
  (C5_url_limit okServerEnv (some "a,b,c,d,e,f,g,h,i,j,k") []).1 (by decide)

/-- C5 counterexample: a single-URL request (well within the limit) whose
worker fails with an uncaught transport error makes `handle` propagate the
exception — the framework's 500, not the claimed 200 JSON array. -/
theorem C5_counterexample :
    (Server.handle crashServerEnv (some "http://refused.example/")
        ["http://refused.example/"]).response =
      Server.Response.internalError Exc.other ∧
    (splitCommas ((some "http://refused.example/").getD "")).length ≤
      Server.MAX_NUMBER_OF_URLS ∧
    ∀ data : List ProcessingResult,
      (Server.handle crashServerEnv (some "http://refused.example/")
          ["http://refused.example/"]).response ≠
        Server.Response.jsonOk data :=
  ⟨rfl, by decide, fun _ h => Server.Response.noConfusion h⟩

/-- C6 (amended): a fetch that fails with `ClientResponseError` (non-success
HTTP status) or `InvalidURL` (malformed URL reaching the network layer) yields
a `FETCH_ERROR` result with null rate; a transport-level fetch failure outside
these classes (e.g. `ClientConnectorError`) is NOT caught and escapes the
worker (see the counterexample). -/
theorem C6_fetch_error_status (env : ArticleEnv)
    (results : List ProcessingResult) (url : String) (cw : List String)
    (hdur : env.fetchDur ≤ Processor.FETCH_TIMEOUT)
    (hres : env.fetchRes = Except.error Exc.clientResponseError ∨
            env.fetchRes = Except.error Exc.invalidURL) :
    Processor.process_article env results url cw =
      Except.ok (results ++ [⟨url, ProcessingStatus.FETCH_ERROR, none⟩]) := by
  rcases hres with h | h <;>
    simp [Processor.process_article, Processor.try_block, Nat.not_lt.mpr hdur, h]

/-- C6 witness: a malformed URL — `session.get` raises `InvalidURL` — yields a
`FETCH_ERROR` result with null rate. -/
theorem C6_witness :
    Processor.process_article { okEnv with fetchRes := Except.error Exc.invalidURL }
      [] "not-a-url" [] =
      Except.ok ([] ++ [⟨"not-a-url", ProcessingStatus.FETCH_ERROR, none⟩]) :=
  C6_fetch_error_status { okEnv with fetchRes := Except.error Exc.invalidURL }
    [] "not-a-url" [] (by decide) (Or.inr rfl)

/-- C6 counterexample: a fetch failing with a transport error (connection
refused — aiohttp raises `ClientConnectorError`, which is not a
`ClientResponseError`) produces no `FETCH_ERROR` result: the exception escapes
the worker and no result is appended. -/
theorem C6_counterexample :
    Processor.process_article connRefusedEnv [] "http://unreachable.example/" [] =
      Except.error Exc.other ∧
    ∀ rs : List ProcessingResult,
      Processor.process_article connRefusedEnv [] "http://unreachable.example/" [] ≠
        Except.ok rs :=
  ⟨rfl, fun _ h => Except.noConfusion h⟩

/-- C7: no execution path of either version of `process_article` ever produces
an `INVALID_URL` status: every result in an output list is either carried over
from the input accumulator or has a status other than `INVALID_URL`. -/
theorem C7_no_invalid_url (env : ArticleEnv) (results : List ProcessingResult)
    (url : String) (cw : List String) (rs : List ProcessingResult)
    (h : Processor.process_article env results url cw = Except.ok rs ∨
         MainPy.process_article env results url cw = Except.ok rs) :
    ∀ r ∈ rs, r ∈ results ∨ r.status ≠ ProcessingStatus.INVALID_URL := by
  rcases h with h | h
  · obtain ⟨r', hrs, hst, _⟩ :=
      Processor.process_article_ok_shape env results url cw rs h
    subst hrs
    intro r hr
    rcases List.mem_append.mp hr with hin | hin
    · exact Or.inl hin
    · simp only [List.mem_singleton] at hin
      subst hin
      exact Or.inr hst
  · obtain ⟨r', hrs, hst, _⟩ :=
      MainPy.batch_process_article_ok_shape env results url cw rs h
    subst hrs
    intro r hr
    rcases List.mem_append.mp hr with hin | hin
    · exact Or.inl hin
    · simp only [List.mem_singleton] at hin
      subst hin
      exact Or.inr hst

/-- C7 witness: the result appended by a successful worker has status `OK`,
not `INVALID_URL`. -/
theorem C7_witness :
    ProcessingResult.mk "http://a.example/" ProcessingStatus.OK (some 0) ∈
      ([] : List ProcessingResult) ∨
    (ProcessingResult.mk "http://a.example/" ProcessingStatus.OK (some 0)).status ≠
      ProcessingStatus.INVALID_URL :=
  C7_no_invalid_url okEnv [] "http://a.example/" []
    [ProcessingResult.mk "http://a.example/" ProcessingStatus.OK (some 0)]
    (Or.inl rfl)
    (ProcessingResult.mk "http://a.example/" ProcessingStatus.OK (some 0))
    (by simp)

/-- C8: the rate scorer returns 100 × (count of tokens present in the
vocabulary) / (total token count), rounded to two decimal places, and returns
0 for an empty token sequence instead of dividing by zero (modelled from the
spec: text_tools.py is not under src/). -/
theorem C8_rate_formula (words vocab : List String) :
    calculate_jaundice_rate [] vocab = 0 ∧
    (words.length ≠ 0 →
      calculate_jaundice_rate words vocab =
        round2 (100 * (words.countP (fun w => vocab.contains w) : ℚ) /
          (words.length : ℚ))) := by
  constructor
  · rfl
  · intro h
    unfold calculate_jaundice_rate
    rw [if_neg h]

/-- C8 witness: the zero-token guard and the formula on a one-token article. -/
theorem C8_witness :
    calculate_jaundice_rate [] ["b"] = 0 ∧
    calculate_jaundice_rate ["a"] ["b"] =
      round2 (100 * ((["a"].countP (fun w => (["b"] : List String).contains w) : ℕ) : ℚ) /
        ((["a"] : List String).length : ℚ)) :=
  ⟨(C8_rate_formula ["a"] ["b"]).1, (C8_rate_formula ["a"] ["b"]).2 (by decide)⟩

theorem Server.handle_vocab_loads (E : ServerEnv) (p : Option String)
    (ord : List String) :
    (Server.handle E p ord).vocab_loads =
      if (splitCommas (p.getD "")).length ≤ Server.MAX_NUMBER_OF_URLS then 1
      else 0 := by
  unfold Server.handle
  by_cases hc : Server.MAX_NUMBER_OF_URLS < (splitCommas (p.getD "")).length
  · rw [if_pos hc, if_neg (by omega)]
  · rw [if_neg hc, if_pos (Nat.not_lt.mp hc)]
    rcases hpr : Processor.process E ord with ⟨a, n⟩
    cases a <;> rfl

theorem Server.serve_cons_loads (E : ServerEnv) (p : Option String)
    (ord : List String) (rest : List (Option String × List String)) :
    (Server.serve E ((p, ord) :: rest)).2 =
      (Server.handle E p ord).vocab_loads + (Server.serve E rest).2 := by
  rcases hsr : Server.serve E rest with ⟨rs, n⟩
  simp [Server.serve, hsr]

/-- C9 (amended): the morphology model is built once per process (module
level in processor.py, once per run in main.py), but the ChargedVocabulary is
loaded from the dictionary files once per `process` call — once per accepted
HTTP request, shared read-only by that request's workers, not once per server
process: over any request sequence the number of vocabulary loads equals the
number of requests that pass the URL-count gate. -/
theorem C9_vocab_per_request (E : ServerEnv)
    (reqs : List (Option String × List String)) :
    (Server.serve E reqs).2 =
      (reqs.filter (fun pr =>
        decide ((splitCommas (pr.1.getD "")).length ≤
          Server.MAX_NUMBER_OF_URLS))).length := by
  induction reqs with
  | nil => rfl
  | cons req rest ih =>
    obtain ⟨p, ord⟩ := req
    rw [Server.serve_cons_loads, ih, Server.handle_vocab_loads]
    by_cases hc : (splitCommas (p.getD "")).length ≤ Server.MAX_NUMBER_OF_URLS
    · rw [if_pos hc]
      simp [List.filter_cons, hc, Nat.add_comm]
    · rw [if_neg hc]
      simp [List.filter_cons, hc]

/-- C9 counterexample: one server process handling two accepted requests
loads the charged-word files twice — the vocabulary is not constructed once
per process and reused across requests. -/
theorem C9_counterexample :
    (Server.serve okServerEnv
      [(some "http://a.example/", ["http://a.example/"]),
       (some "http://a.example/", ["http://a.example/"])]).2 = 2 ∧
    (2 : ℕ) ≠ 1 :=
  ⟨rfl, by decide⟩

/-- C10: a request with absent or empty `urls` parameter is not rejected:
splitting `""` on commas yields `[""]`, one worker runs the pipeline on the
URL `""` (whose fetch, in the real environment, raises the caught
`InvalidURL`), and the handler answers 200 with exactly one result whose
`url` field is the empty string. -/
theorem C10_empty_urls_param (E : ServerEnv) (p : Option String)
    (hp : p = none ∨ p = some "")
    (hok : Processor.worker_ok (E.article "") (get_charged_words E.dict) = true) :
    ∃ r, Server.handle E p [""] =
        ⟨Server.Response.jsonOk [r], 1, 1⟩ ∧ r.url = "" := by
  obtain ⟨r, hr, hu⟩ :=
    Processor.process_article_ok_of_worker_ok (E.article "") [] ""
      (get_charged_words E.dict) hok
  have hsplit : splitCommas (p.getD "") = [""] := by
    rcases hp with hp | hp <;> subst hp <;> rfl
  refine ⟨r, ?_, hu⟩
  unfold Server.handle
  rw [hsplit, if_neg (by decide)]
  have hp2 : Processor.process E [""] = (Except.ok [r], 1) := by
    unfold Processor.process Processor.process_list
    rw [hr]
    rfl
  rw [hp2]

/-- C10 witness: the concrete environment in which fetching `""` raises
`InvalidURL`. -/
theorem C10_witness :
    ∃ r, Server.handle emptyUrlServerEnv (some "") [""] =
        ⟨Server.Response.jsonOk [r], 1, 1⟩ ∧ r.url = "" :=
  C10_empty_urls_param emptyUrlServerEnv (some "") (Or.inr rfl) (by decide)
